import Mathlib

/-!
Verification of the Place&Play telegram-bot verification agent.

This file gives a shallow embedding of the parts of the repository that the
checked properties are about:

* the JSON value model and the tolerant code extractor
  (`PlaceAndPlayAgent._find_code_in_payload`),
* the JWT session codec (`generate_verification_link`,
  `validate_verification_token`), with PyJWT modelled abstractly as an ideal
  message-authentication scheme,
* the sliding-window rate limiter of `telegram_bot.py`
  (`check_ddos_protection`, `record_attempt`) over an association-list model
  of the `defaultdict(list)` attempts map,
* the two verification-code request functions (one per module) and the
  orchestration entry points (`process_verification_request`,
  `handle_phone_number`), with the two upstream HTTP calls and the Telegram
  delivery modelled as explicit parameters and an explicit call trace.

Timestamps produced by `time.time()` are modelled as exact rationals; Python
`str.lower` is modelled on ASCII letters (the keys the extractor compares
against are ASCII).
-/

/-- A parsed JSON value, as produced by `response.json()`: objects with string
keys, arrays, strings, numbers (integers kept apart from floats, mirroring
Python's `int`/`float` distinction that `isinstance(value, (str, int))`
depends on), booleans and null. -/
inductive Json where
  | null
  | bool (b : Bool)
  | int (n : Int)
  | float (q : ℚ)
  | str (s : String)
  | arr (items : List Json)
  | obj (fields : List (String × Json))

/-- Python `str.lower` on a whole string, modelled character-wise on the
ASCII letters via `Char.toLower` (the keys the extractor compares against
are ASCII). -/
def lowerStr (s : String) : String := ⟨s.data.map Char.toLower⟩

/-- Python truthiness of a JSON value (`if value:`): `None`, `False`, `0`,
`0.0`, `""`, `[]` and `{}` are falsy, everything else is truthy. -/
def pyTruthy : Json → Bool
  | .null => false
  | .bool b => b
  | .int n => n != 0
  | .float q => q != 0
  | .str s => !s.isEmpty
  | .arr items => !items.isEmpty
  | .obj fields => !fields.isEmpty

/-- First binding of a key in an object's field list (Python dicts have unique
keys, so first-match lookup coincides with dict lookup). -/
def lookupField : List (String × Json) → String → Option Json
  | [], _ => none
  | (k, v) :: rest, key => if k = key then some v else lookupField rest key

/-- Python `d.get(key)` / `key in d` on a JSON value known to be an object;
`none` on non-objects. -/
def jsonGet : Json → String → Option Json
  | .obj fields, key => lookupField fields key
  | _, _ => none

/-- Python `value == n` for an int literal `n`: true for the equal `int`, the
equal-valued `float`, and (since `bool` is an `int` subclass) the equal-valued
boolean. -/
def pyEqInt (v : Json) (n : Int) : Bool :=
  match v with
  | .int m => m == n
  | .float q => q == (n : ℚ)
  | .bool b => (if b then (1 : Int) else 0) == n
  | _ => false

/-- Python `isinstance(value, (str, int))`: strings, ints, and booleans
(`bool` is a subclass of `int`). -/
def isStrOrInt : Json → Bool
  | .str _ => true
  | .int _ => true
  | .bool _ => true
  | _ => false

/-- Python `str(value)` for a value passing `isStrOrInt`. -/
def pyStrOf : Json → String
  | .str s => s
  | .int n => toString n
  | .bool b => if b then "True" else "False"
  | _ => ""

/-- Python `str.strip()` (whitespace from both ends), modelled character-wise
over the string's data. -/
def pyStrip (s : String) : String :=
  ⟨(((s.data.dropWhile Char.isWhitespace).reverse.dropWhile Char.isWhitespace).reverse)⟩

/-- Python `s.startswith(pre)`. -/
def pyStartsWith (s pre : String) : Bool := pre.data.isPrefixOf s.data

namespace PlaceAndPlayAgent

/-- The key test of `_find_code_in_payload`, line 261 of
`place_and_play_agent.py`: `str(key).lower() in TARGET_KEYS` with
`TARGET_KEYS = {"code", "verificationCode", "otp", "otpCode"}`. The key is
lowercased but two of the set's members contain uppercase letters, so those
two literals are compared verbatim. -/
def target_key_match (k : String) : Bool :=
  let lk := lowerStr k
  lk == "code" || lk == "verificationCode" || lk == "otp" || lk == "otpCode"

mutual
/-- Depth-first search of `_find_code_in_payload` (lines 254-274),
parametrised by the key test so that the source's test and the amended
specification's test can be compared. At a dict, each entry is visited in
order: a key passing `matchKey` whose value is a string/int returns
`str(value)` at once; otherwise the value is searched recursively and a
truthy (non-empty) result is returned (`if found:` skips `""`). Lists are
searched element-wise with the same truthiness filter. Scalars yield `None`. -/
def find_code_core (matchKey : String → Bool) : Json → Option String
  | .obj fields => find_code_fields matchKey fields
  | .arr items => find_code_items matchKey items
  | _ => none

/-- The dict loop of `_find_code_in_payload`. -/
def find_code_fields (matchKey : String → Bool) : List (String × Json) → Option String
  | [] => none
  | (k, v) :: rest =>
    if matchKey k && isStrOrInt v then some (pyStrOf v)
    else
      match find_code_core matchKey v with
      | some found => if found.isEmpty then find_code_fields matchKey rest else some found
      | none => find_code_fields matchKey rest

/-- The list loop of `_find_code_in_payload`. -/
def find_code_items (matchKey : String → Bool) : List Json → Option String
  | [] => none
  | item :: rest =>
    match find_code_core matchKey item with
    | some found => if found.isEmpty then find_code_items matchKey rest else some found
    | none => find_code_items matchKey rest
end

/-- `PlaceAndPlayAgent._find_code_in_payload`: the extractor as written, with
the source's key test. -/
def _find_code_in_payload : Json → Option String := find_code_core target_key_match

/-- Key test following the amended claim's words: the key matches when its
lowercase form is `"code"` or `"otp"` (the two all-lowercase members of
`TARGET_KEYS`; the mixed-case members are unreachable after lowercasing). -/
def amended_key_match (k : String) : Bool :=
  let lk := lowerStr k
  lk == "code" || lk == "otp"

/-- The extractor as the amended claim describes it: identical traversal, with
matching restricted to case variants of `code` and `otp`. -/
def find_code_spec : Json → Option String := find_code_core amended_key_match

end PlaceAndPlayAgent


/-! ### The JWT session codec

`generate_verification_link` packs the session into a PyJWT HS256 token;
`validate_verification_token` decodes it. The token and PyJWT are modelled
abstractly as an ideal message-authentication scheme: a token is either a
well-formed JWT signed under some secret (signature verification is exact
secret equality) or a string that is not a valid JWT for the given secret.
`jwt.decode` verifies the signature first and then the registered `exp`
claim (raising `ExpiredSignatureError` when `exp <= now`), exactly PyJWT's
order with zero leeway. Times are Unix seconds. -/

/-- The claims dict built at lines 56-63 of `place_and_play_agent.py`. After
`jwt.encode`/`jwt.decode`, the `exp` and `iat` datetimes are Unix-timestamp
integers (PyJWT serialises datetime claims with `calendar.timegm`). -/
structure JwtPayload where
  phone_number : String
  access_token : String
  refresh_token : String
  exp : Nat
  iat : Nat
  type : String
deriving DecidableEq

/-- An abstract JWT string: either a token produced by `jwt.encode` under
some secret, or any other string (not a valid JWT under any secret we hold). -/
inductive Token where
  | signed (secret : String) (payload : JwtPayload)
  | malformed (raw : String)

/-- Outcome of `jwt.decode(token, secret, algorithms=["HS256"])`:
the payload, or `ExpiredSignatureError`, or any other `InvalidTokenError`
(bad structure and bad signature both land there). -/
inductive JwtDecodeResult where
  | ok (payload : JwtPayload)
  | expiredSignature
  | invalidToken

/-- `jwt.decode` with the default options: signature check first, then the
`exp` claim (expired when `exp <= now`, leeway 0). -/
def jwt_decode (secret : String) (tok : Token) (now : Nat) : JwtDecodeResult :=
  match tok with
  | .malformed _ => .invalidToken
  | .signed s p =>
    if s ≠ secret then .invalidToken
    else if p.exp ≤ now then .expiredSignature
    else .ok p

namespace PlaceAndPlayAgent

/-- `PlaceAndPlayAgent.generate_verification_link` (lines 41-87): builds the
claims dict with `exp = now + 24h`, `iat = now`, `type = "verification"` and
signs it with the agent's secret. Only the JWT itself is modelled; the
returned dict wraps it in a deep link. -/
def generate_verification_link (secret : String) (phone_number access_token refresh_token : String)
    (now : Nat) : Token :=
  .signed secret
    { phone_number := phone_number
      access_token := access_token
      refresh_token := refresh_token
      exp := now + 24 * 3600
      iat := now
      type := "verification" }

/-- Result of `validate_verification_token`: the session fields on success,
or the error tag of the returned dict. -/
inductive ValidateResult where
  | success (phone_number access_token refresh_token : String) (exp : Nat)
  | failure (error : String)
deriving DecidableEq

/-- `PlaceAndPlayAgent.validate_verification_token` (lines 89-148).
`jwt.decode` failures map to `TOKEN_EXPIRED` / `INVALID_TOKEN` via the
`except` ladder. On a decoded payload the `type` check runs first. The
expiry re-check at line 112 is `datetime.utcnow() >
datetime.fromisoformat(payload['exp'].isoformat())`; after `jwt.decode` the
`exp` claim is an `int`, and `int` has no `isoformat` attribute, so this
line raises `AttributeError`, which the final `except Exception` handler
turns into the `VALIDATION_ERROR` failure dict. The success return at lines
121-128 is therefore unreachable. -/
def validate_verification_token (secret : String) (tok : Token) (now : Nat) : ValidateResult :=
  match jwt_decode secret tok now with
  | .expiredSignature => .failure "TOKEN_EXPIRED"
  | .invalidToken => .failure "INVALID_TOKEN"
  | .ok payload =>
    if payload.type ≠ "verification" then .failure "INVALID_TOKEN_TYPE"
    else .failure "VALIDATION_ERROR"

/-- Whether a validation result is the success dict. -/
def ValidateResult.isSuccess : ValidateResult → Bool
  | .success .. => true
  | .failure _ => false

end PlaceAndPlayAgent

/-! ### The agent's code request and orchestration -/

/-- An upstream HTTP response as the code sees it: status code, parsed JSON
body (`none` when `response.json()` raises), and raw text. -/
structure HttpResp where
  status : Nat
  body : Option Json
  text : String

namespace PlaceAndPlayAgent

/-- Result of the agent's `request_verification_code`: the dict's `success`
flag collapsed with its `code` / `error` fields. -/
inductive AgentVerifyResult where
  | success (code : String)
  | failure (error : String)
deriving DecidableEq

/-- `PlaceAndPlayAgent.request_verification_code` (lines 348-438). On HTTP
200 the body is parsed (an unparsable body leaves `result_json = {}`) and
searched by `_find_code_in_payload`; a truthy (non-empty) code yields the
success dict and anything else `CODE_NOT_FOUND`. HTTP 401 yields
`AUTH_ERROR`; every other status yields `API_ERROR`. -/
def request_verification_code (resp : HttpResp) : AgentVerifyResult :=
  if resp.status = 200 then
    let result_json := resp.body.getD (Json.obj [])
    match _find_code_in_payload result_json with
    | some code => if code.isEmpty then .failure "CODE_NOT_FOUND" else .success code
    | none => .failure "CODE_NOT_FOUND"
  else if resp.status = 401 then .failure "AUTH_ERROR"
  else .failure "API_ERROR"

/-- Outcome dict of `process_verification_request`. -/
inductive ProcessResult where
  | delivered (code : String)
  | failed (error : String)
deriving DecidableEq

/-- Which of the three message templates `process_verification_request`
hands to `send_telegram_message`: the code message (lines 654-660), the
distinct re-authenticate message for `AUTH_ERROR` (lines 668-673), or the
generic try-later message (lines 675-680). -/
inductive SentMessage where
  | codeMessage (code : String)
  | authErrorMessage
  | genericErrorMessage (error : String)
deriving DecidableEq

/-- `PlaceAndPlayAgent.process_verification_request` (lines 643-683): runs
the code request, picks the message, sends it, and returns the outcome.
`deliveryOk` is the boolean that `send_telegram_message` returns; the source
discards it (lines 661 and 682), so it influences nothing. -/
def process_verification_request (resp : HttpResp) (deliveryOk : Bool) :
    ProcessResult × SentMessage :=
  match request_verification_code resp with
  | .success code =>
    if code.isEmpty then (.failed "UNKNOWN_ERROR", .genericErrorMessage "UNKNOWN_ERROR")
    else (.delivered code, .codeMessage code)
  | .failure e =>
    if e = "AUTH_ERROR" then (.failed e, .authErrorMessage)
    else (.failed e, .genericErrorMessage e)

end PlaceAndPlayAgent

/-! ### The telegram bot: rate limiter and phone-number handler

`telegram_bot.py` keeps `self.attempts`, a `defaultdict(list)` from chat id
to the list of attempt timestamps (`time.time()` floats, modelled as exact
rationals). The map is modelled as an association list in insertion order:
reading a missing key through the defaultdict inserts an empty entry at the
end, exactly as Python's `defaultdict.__getitem__` does. -/

namespace PlaceAndPlayBot

/-- `self.max_attempts` (line 42). -/
def max_attempts : Nat := 5

/-- `self.block_duration` in seconds (line 43). -/
def block_duration : ℚ := 600

/-- The `self.attempts` map: chat id to attempt timestamps, insertion order. -/
abbrev AttemptsMap := List (Int × List ℚ)

/-- Lookup of a chat id's entry (first binding; keys are unique in a dict). -/
def mapLookup : AttemptsMap → Int → Option (List ℚ)
  | [], _ => none
  | (k, v) :: rest, chat_id => if k = chat_id then some v else mapLookup rest chat_id

/-- `self.attempts[chat_id] = v`: replace the existing binding in place, or
append a new one at the end (Python dicts keep insertion order). -/
def mapSet : AttemptsMap → Int → List ℚ → AttemptsMap
  | [], chat_id, v => [(chat_id, v)]
  | (k, w) :: rest, chat_id, v =>
    if k = chat_id then (chat_id, v) :: rest else (k, w) :: mapSet rest chat_id v

/-- The compaction predicate of line 100: `current_time - attempt <
self.block_duration`. -/
def inWindow (now attempt : ℚ) : Bool := now - attempt < block_duration

/-- Python `min` over a list of timestamps (line 106; only evaluated on
non-empty lists). -/
def listMin : List ℚ → ℚ
  | [] => 0
  | [a] => a
  | a :: b :: rest => min a (listMin (b :: rest))

/-- Python `int(q)` for the non-negative rationals this code applies it to
(truncation towards zero coincides with the floor there). -/
def pyInt (q : ℚ) : Int := Int.floor q

/-- Python `a // b` on floats, as an integer result via `int(...)`. -/
def pyFloorDiv (a b : ℚ) : Int := Int.floor (a / b)

/-- Python `a % b` on floats for positive `b`. -/
def pyMod (a b : ℚ) : ℚ := a - b * (Int.floor (a / b) : ℚ)

/-- The dict returned by `check_ddos_protection`: either the blocked dict
with its live countdown fields, or `{"blocked": False}`. -/
inductive DdosStatus where
  | blockedFor (time_until_unblock : ℚ) (minutes seconds : Int)
  | notBlocked
deriving DecidableEq

/-- The `blocked` flag of the returned dict. -/
def DdosStatus.isBlocked : DdosStatus → Bool
  | .blockedFor .. => true
  | .notBlocked => false

/-- The `time_until_unblock` field, present only when blocked. -/
def DdosStatus.waitTime : DdosStatus → Option ℚ
  | .blockedFor w _ _ => some w
  | .notBlocked => none

/-- `PlaceAndPlayBot.check_ddos_protection` (lines 94-118). Reading
`self.attempts[chat_id]` through the defaultdict materialises the entry;
the list is compacted to the timestamps within `block_duration` of now and
written back; the caller is blocked exactly when at least `max_attempts`
remain, with the countdown computed from the oldest retained timestamp.
Returns the dict and the updated map. -/
def check_ddos_protection (attempts : AttemptsMap) (chat_id : Int) (now : ℚ) :
    DdosStatus × AttemptsMap :=
  let chat_attempts := (mapLookup attempts chat_id).getD []
  let kept := chat_attempts.filter (inWindow now)
  let attempts' := mapSet attempts chat_id kept
  if max_attempts ≤ kept.length then
    let oldest := listMin kept
    let time_until_unblock := block_duration - (now - oldest)
    (.blockedFor time_until_unblock (pyFloorDiv time_until_unblock 60)
      (pyInt (pyMod time_until_unblock 60)), attempts')
  else (.notBlocked, attempts')

/-- `PlaceAndPlayBot.record_attempt` (lines 120-124): append now to the
chat's list (creating the entry through the defaultdict if missing). -/
def record_attempt (attempts : AttemptsMap) (chat_id : Int) (now : ℚ) : AttemptsMap :=
  mapSet attempts chat_id (((mapLookup attempts chat_id).getD []) ++ [now])

/-- Result dict of the bot's own `request_verification_code`. -/
inductive BotVerifyResult where
  | success (code : Json)
  | failure (error msg : String)

/-- The error tag of the result (empty for success). -/
def BotVerifyResult.errorTag : BotVerifyResult → String
  | .success _ => ""
  | .failure e _ => e

/-- The trailing `if code:` of the 200-branch (lines 167-173): a truthy code
yields the success dict, otherwise `CODE_NOT_FOUND`. -/
def botFinish (code : Option Json) : BotVerifyResult :=
  match code with
  | some v => if pyTruthy v then .success v else .failure "CODE_NOT_FOUND" "code not found"
  | none => .failure "CODE_NOT_FOUND" "code not found"

/-- Format-3 fallback loop (lines 158-165): first entry whose key is
`"code"` with truthy value (break with it), else first entry whose value is
a dict containing `"code"` (break with `value["code"]`, truthy or not). -/
def botScan : List (String × Json) → Option Json
  | [] => none
  | (k, v) :: rest =>
    if k = "code" && pyTruthy v then some v
    else
      match v with
      | .obj vfields =>
        if (lookupField vfields "code").isSome then lookupField vfields "code"
        else botScan rest
      | _ => botScan rest

/-- `PlaceAndPlayBot.request_verification_code` (lines 126-183). On 200 the
body is tried in three formats: `status == 200` with a `result` dict, a
top-level `code`, then the fallback scan; a raised exception (unparsable
body, or `.get` on a non-dict) lands in the `except` handler as
`UNKNOWN_ERROR`. Any non-200 status — 401 included, there is no separate
branch for it — returns `API_ERROR` with the response text. -/
def request_verification_code (resp : HttpResp) : BotVerifyResult :=
  if resp.status = 200 then
    match resp.body with
    | none => .failure "UNKNOWN_ERROR" "json decode failed"
    | some body =>
      match body with
      | .obj fields =>
        if pyEqInt ((jsonGet body "status").getD .null) 200 && (jsonGet body "result").isSome then
          match jsonGet body "result" with
          | some (.obj rfields) => botFinish (lookupField rfields "code")
          | _ => .failure "UNKNOWN_ERROR" "AttributeError on result.get"
        else if (jsonGet body "code").isSome then botFinish (jsonGet body "code")
        else botFinish (botScan fields)
      | _ => .failure "UNKNOWN_ERROR" "AttributeError on response_data.get"
  else .failure "API_ERROR" resp.text

/-- Outcome of `get_auth_tokens` (lines 45-92), as the handler consumes it. -/
inductive LoginOutcome where
  | ok (access_token refresh_token : String)
  | fail (error msg : String)

/-- The two upstream HTTP calls the handler can issue. -/
inductive UpstreamCall where
  | login
  | codeRequest
deriving DecidableEq

/-- The final reply `handle_phone_number` sends for the update. -/
inductive HandlerReply where
  | blockedReply (minutes seconds : Int)
  | formatErrorReply
  | tokenErrorReply (error msg : String)
  | codeReply (code : Json)
  | authErrorReply
  | apiErrorReply (msg : String)

/-- Whether the reply is the rate-limit block message. -/
def HandlerReply.isBlockedReply : HandlerReply → Bool
  | .blockedReply .. => true
  | _ => false

/-- Truncation of the API answer shown to the user (lines 337-338). -/
def truncate200 (s : String) : String :=
  if s.length > 200 then s.take 200 ++ "..." else s

/-- `PlaceAndPlayBot.handle_phone_number` (lines 226-355). The inbound text
is stripped; the DDoS check runs first and a blocked chat gets the block
reply with no further work; then the format check (`+` prefix, length at
least 10) rejects without recording; otherwise the attempt is recorded and
the two upstream calls run in order, their outcomes supplied here as
`login` and `codeResp`. Returns the reply, the updated attempts map, and
the upstream calls issued. -/
def handle_phone_number (attempts : AttemptsMap) (chat_id : Int) (text : String) (now : ℚ)
    (login : LoginOutcome) (codeResp : HttpResp) :
    HandlerReply × AttemptsMap × List UpstreamCall :=
  let phone_number := pyStrip text
  match check_ddos_protection attempts chat_id now with
  | (.blockedFor _ minutes seconds, m1) => (.blockedReply minutes seconds, m1, [])
  | (.notBlocked, m1) =>
    if pyStartsWith phone_number "+" = false ∨ phone_number.length < 10 then
      (.formatErrorReply, m1, [])
    else
      let m2 := record_attempt m1 chat_id now
      match login with
      | .fail e msg => (.tokenErrorReply e msg, m2, [.login])
      | .ok _ _ =>
        match request_verification_code codeResp with
        | .success code =>
          if pyTruthy code then (.codeReply code, m2, [.login, .codeRequest])
          else (.apiErrorReply (truncate200 "unknown error"), m2, [.login, .codeRequest])
        | .failure e msg =>
          if e = "AUTH_ERROR" then (.authErrorReply, m2, [.login, .codeRequest])
          else (.apiErrorReply (truncate200 msg), m2, [.login, .codeRequest])

/-- The chat's effective rate-limit window at an instant: the recorded
timestamps still inside `block_duration` of `now`. This is what
`check_ddos_protection` counts. -/
def windowAt (attempts : AttemptsMap) (chat_id : Int) (now : ℚ) : List ℚ :=
  ((mapLookup attempts chat_id).getD []).filter (inWindow now)

end PlaceAndPlayBot

/-! ## Helper lemmas -/

/-- `Char.ofNat` at a valid scalar value round-trips through `toNat`. -/
theorem toNat_ofNat_valid (m : Nat) (h : Nat.isValidChar m) : (Char.ofNat m).toNat = m := by
  rw [Char.ofNat, dif_pos h]
  rfl

/-- No character lowercases to the uppercase letter `C`: the uppercase range
maps into `a`-`z`, and outside it `toLower` is the identity. -/
theorem lowerChar_ne_C (c : Char) : Char.toLower c ≠ 'C' := by
  intro h
  simp only [Char.toLower] at h
  split_ifs at h with hcase
  · have ht := congrArg Char.toNat h
    rw [toNat_ofNat_valid _ (Or.inl (by omega))] at ht
    have hC : Char.toNat 'C' = 67 := rfl
    rw [hC] at ht
    omega
  · subst h
    exact hcase (by decide)

/-- A lowercased string never equals a string containing `C`. -/
theorem lowerStr_ne_of_memC (s t : String) (hc : 'C' ∈ t.data) : lowerStr s ≠ t := by
  intro h
  have hd : s.data.map Char.toLower = t.data := congrArg String.data h
  rw [← hd] at hc
  obtain ⟨d, _, hdC⟩ := List.mem_map.mp hc
  exact lowerChar_ne_C d hdC

/-- The source's key test coincides with the amended one: after lowercasing,
the mixed-case members `verificationCode` and `otpCode` of `TARGET_KEYS` can
never be hit, leaving case variants of `code` and `otp`. -/
theorem target_key_match_eq_amended (k : String) :
    PlaceAndPlayAgent.target_key_match k = PlaceAndPlayAgent.amended_key_match k := by
  unfold PlaceAndPlayAgent.target_key_match PlaceAndPlayAgent.amended_key_match
  have h1 : (lowerStr k == "verificationCode") = false :=
    beq_eq_false_iff_ne.mpr (lowerStr_ne_of_memC k _ (by decide))
  have h2 : (lowerStr k == "otpCode") = false :=
    beq_eq_false_iff_ne.mpr (lowerStr_ne_of_memC k _ (by decide))
  simp only [h1, h2, Bool.or_false]

/-- The extractor as written equals the amended-specification extractor. -/
theorem find_code_eq_spec (j : Json) :
    PlaceAndPlayAgent._find_code_in_payload j = PlaceAndPlayAgent.find_code_spec j := by
  unfold PlaceAndPlayAgent._find_code_in_payload PlaceAndPlayAgent.find_code_spec
  rw [funext target_key_match_eq_amended]

/-! ## The claims -/

/-- C1: the round-trip of the session codec fails in the code. The spec
demands that decoding an encoded, unexpired session under the same secret
succeeds and returns an equal session; instead `validate_verification_token`
returns the `VALIDATION_ERROR` failure dict, because line 112 calls
`.isoformat()` on the decoded `exp` claim, which is an `int` after
`jwt.decode`, raising `AttributeError` into the catch-all handler. Evaluated
here at a concrete well-formed session one second after issuance. -/
theorem c1_round_trip_validation_error :
    PlaceAndPlayAgent.validate_verification_token "jwt-secret"
      (PlaceAndPlayAgent.generate_verification_link "jwt-secret" "+998998888931"
        "access-token" "refresh-token" 1700000000)
      1700000001 = PlaceAndPlayAgent.ValidateResult.failure "VALIDATION_ERROR" := rfl

/-- C2 (counterexample): the claim says an object whose only key is any case
variant of `verificationCode` or `otpCode` with a string value yields that
value; in the code both return `None`, because the lowercased key is compared
against the mixed-case literals of `TARGET_KEYS` and can never equal them. -/
theorem c2_extractor_key_matching_counterexample :
    PlaceAndPlayAgent._find_code_in_payload (Json.obj [("verificationCode", Json.str "1234")]) = none
    ∧ PlaceAndPlayAgent._find_code_in_payload (Json.obj [("otpCode", Json.str "5678")]) = none :=
  ⟨rfl, rfl⟩

/-- C2 (amended): only keys whose lowercase form is `code` or `otp` can
match. The extractor equals the amended-specification traversal — same
depth-first order, first match returned stringified, values restricted to
strings/ints (with booleans, an `int` subclass), empty-string nested results
skipped — whose key test is exactly that lowercase membership in
`{code, otp}`; and `extract({"Code": 1234})` still returns `"1234"`. -/
theorem c2_extractor_key_matching_amended :
    (∀ j, PlaceAndPlayAgent._find_code_in_payload j = PlaceAndPlayAgent.find_code_spec j)
    ∧ PlaceAndPlayAgent._find_code_in_payload (Json.obj [("Code", Json.int 1234)]) = some "1234" :=
  ⟨find_code_eq_spec, rfl⟩

/-- C7: every token `validate_verification_token` accepts has kind
`verification` and an unexpired expiry — and no expired or wrong-kind token
ever decodes successfully. Both hold because the function never returns the
success dict at all, for any token, secret and decode time: an expired token
maps to `TOKEN_EXPIRED`, a wrong-kind one to `INVALID_TOKEN_TYPE`, a
tampered one to `INVALID_TOKEN`, and a well-formed current one to
`VALIDATION_ERROR` through the `exp`-isoformat `AttributeError` (the C1
code bug), so the invariant on accepted tokens holds (vacuously). -/
theorem c7_decoded_session_invariant (secret : String) (tok : Token) (now : Nat) :
    (PlaceAndPlayAgent.validate_verification_token secret tok now).isSuccess = false := by
  simp only [PlaceAndPlayAgent.validate_verification_token]
  cases jwt_decode secret tok now with
  | ok payload =>
    by_cases h : payload.type ≠ "verification"
    · simp [h, PlaceAndPlayAgent.ValidateResult.isSuccess]
    · simp [h, PlaceAndPlayAgent.ValidateResult.isSuccess]
  | expiredSignature => simp [PlaceAndPlayAgent.ValidateResult.isSuccess]
  | invalidToken => simp [PlaceAndPlayAgent.ValidateResult.isSuccess]

/-- C8: the Telegram delivery outcome never changes the verification
outcome. `process_verification_request` returns the same result whatever
`send_telegram_message` would return (the source discards that boolean),
and whenever the code request succeeds with an extracted (truthy) code, the
outcome is `Delivered` with that code for every delivery outcome. -/
theorem c8_delivery_independence :
    (∀ (resp : HttpResp) (d1 d2 : Bool),
        PlaceAndPlayAgent.process_verification_request resp d1 =
          PlaceAndPlayAgent.process_verification_request resp d2)
    ∧ (∀ (resp : HttpResp) (code : String) (d : Bool),
        resp.status = 200 →
        PlaceAndPlayAgent._find_code_in_payload (resp.body.getD (Json.obj [])) = some code →
        code.isEmpty = false →
        (PlaceAndPlayAgent.process_verification_request resp d).1 =
          PlaceAndPlayAgent.ProcessResult.delivered code) := by
  constructor
  · intro _ _ _; rfl
  · intro resp code d h200 hfind hne
    simp [PlaceAndPlayAgent.process_verification_request,
      PlaceAndPlayAgent.request_verification_code, h200, hfind, hne]

/-- C8 witness: the concrete 200-response `{"result": {"code": "7788"}}`
with a failed delivery still yields `Delivered "7788"`. -/
theorem c8_delivery_independence_witness :
    ((⟨200, some (Json.obj [("result", Json.obj [("code", Json.str "7788")])]),
        "raw"⟩ : HttpResp).status = 200
      ∧ PlaceAndPlayAgent._find_code_in_payload
          ((⟨200, some (Json.obj [("result", Json.obj [("code", Json.str "7788")])]),
            "raw"⟩ : HttpResp).body.getD (Json.obj [])) = some "7788"
      ∧ ("7788" : String).isEmpty = false)
    ∧ (PlaceAndPlayAgent.process_verification_request
        ⟨200, some (Json.obj [("result", Json.obj [("code", Json.str "7788")])]), "raw"⟩
        false).1 = PlaceAndPlayAgent.ProcessResult.delivered "7788" :=
  ⟨⟨rfl, rfl, rfl⟩, c8_delivery_independence.2 _ "7788" false rfl rfl rfl⟩

namespace PlaceAndPlayBot

/-- Writing a key makes it readable with the written value. -/
theorem mapLookup_mapSet_self (m : AttemptsMap) (k : Int) (v : List ℚ) :
    mapLookup (mapSet m k v) k = some v := by
  induction m with
  | nil => simp [mapSet, mapLookup]
  | cons hd tl ih =>
    obtain ⟨a, b⟩ := hd
    by_cases h : a = k
    · simp [mapSet, h, mapLookup]
    · simp [mapSet, h, mapLookup, ih]

/-- Writing a key leaves every other key's binding unchanged. -/
theorem mapLookup_mapSet_ne (m : AttemptsMap) (k : Int) (v : List ℚ) (j : Int) (hj : j ≠ k) :
    mapLookup (mapSet m k v) j = mapLookup m j := by
  induction m with
  | nil => simp [mapSet, mapLookup, Ne.symm hj]
  | cons hd tl ih =>
    obtain ⟨a, b⟩ := hd
    by_cases h : a = k
    · subst h
      simp [mapSet, mapLookup, Ne.symm hj]
    · simp [mapSet, h, mapLookup, ih]

/-- Writing a previously absent key appends one entry. -/
theorem mapSet_length_of_none (m : AttemptsMap) (k : Int) (v : List ℚ)
    (h : mapLookup m k = none) : (mapSet m k v).length = m.length + 1 := by
  induction m with
  | nil => simp [mapSet]
  | cons hd tl ih =>
    obtain ⟨a, b⟩ := hd
    by_cases ha : a = k
    · simp [mapLookup, ha] at h
    · simp [mapLookup, ha] at h
      simp [mapSet, ha, ih h]

/-- The map written back by `check_ddos_protection`: always the chat's entry
replaced (or created) with the compacted window. -/
theorem check_ddos_snd (m : AttemptsMap) (chat_id : Int) (now : ℚ) :
    (check_ddos_protection m chat_id now).2 = mapSet m chat_id (windowAt m chat_id now) := by
  simp only [check_ddos_protection, windowAt]
  split <;> rfl

/-- The blocked shape of `check_ddos_protection` when the compacted window
still holds at least `max_attempts` timestamps. -/
theorem check_ddos_blocked_eq (m : AttemptsMap) (chat_id : Int) (now : ℚ)
    (h : max_attempts ≤ (windowAt m chat_id now).length) :
    check_ddos_protection m chat_id now =
      (DdosStatus.blockedFor (block_duration - (now - listMin (windowAt m chat_id now)))
        (pyFloorDiv (block_duration - (now - listMin (windowAt m chat_id now))) 60)
        (pyInt (pyMod (block_duration - (now - listMin (windowAt m chat_id now))) 60)),
       mapSet m chat_id (windowAt m chat_id now)) := by
  simp only [check_ddos_protection, windowAt] at h ⊢
  rw [if_pos h]

/-- The unblocked shape of `check_ddos_protection`. -/
theorem check_ddos_notBlocked_eq (m : AttemptsMap) (chat_id : Int) (now : ℚ)
    (h : ¬ max_attempts ≤ (windowAt m chat_id now).length) :
    check_ddos_protection m chat_id now =
      (DdosStatus.notBlocked, mapSet m chat_id (windowAt m chat_id now)) := by
  simp only [check_ddos_protection, windowAt] at h ⊢
  rw [if_neg h]

/-- The check's write-back never changes any chat's effective window: it only
drops already-expired timestamps. -/
theorem windowAt_after_check (m : AttemptsMap) (chat_id : Int) (now : ℚ) (j : Int) :
    windowAt (mapSet m chat_id (windowAt m chat_id now)) j now = windowAt m j now := by
  by_cases hj : j = chat_id
  · subst hj
    simp only [windowAt, mapLookup_mapSet_self, Option.getD_some, List.filter_filter,
      Bool.and_self]
  · simp only [windowAt, mapLookup_mapSet_ne m chat_id _ j hj]

end PlaceAndPlayBot

/-- C3: the sliding-window check. For every identity and instant, the check
counts only the timestamps still within the 600-second window: the `blocked`
flag is set exactly when at least `max_attempts` (5) of them remain and the
reported wait is the oldest retained timestamp plus the window length minus
now; with 5 attempts at `t..t+4`, a check at `t+4` is blocked (the 6th
attempt inside the window) while a check at `t+600.5` is not, the oldest
attempt having aged out. -/
theorem c3_sliding_window :
    (∀ (m : PlaceAndPlayBot.AttemptsMap) (chat_id : Int) (now : ℚ),
        (PlaceAndPlayBot.check_ddos_protection m chat_id now).1.isBlocked =
          decide (PlaceAndPlayBot.max_attempts ≤
            (PlaceAndPlayBot.windowAt m chat_id now).length)
        ∧ (PlaceAndPlayBot.check_ddos_protection m chat_id now).1.waitTime =
            (if PlaceAndPlayBot.max_attempts ≤ (PlaceAndPlayBot.windowAt m chat_id now).length
              then some (PlaceAndPlayBot.listMin (PlaceAndPlayBot.windowAt m chat_id now) +
                PlaceAndPlayBot.block_duration - now)
              else none))
    ∧ (∀ t : ℚ,
        (PlaceAndPlayBot.check_ddos_protection [(0, [t, t+1, t+2, t+3, t+4])] 0 (t+4)).1.isBlocked
          = true)
    ∧ (∀ t : ℚ,
        (PlaceAndPlayBot.check_ddos_protection [(0, [t, t+1, t+2, t+3, t+4])] 0
            (t + 600.5)).1.isBlocked = false) := by
  refine ⟨fun m chat_id now => ?_, fun t => ?_, fun t => ?_⟩
  · by_cases h : PlaceAndPlayBot.max_attempts ≤ (PlaceAndPlayBot.windowAt m chat_id now).length
    · rw [PlaceAndPlayBot.check_ddos_blocked_eq m chat_id now h]
      refine ⟨by simp [PlaceAndPlayBot.DdosStatus.isBlocked, h], ?_⟩
      rw [if_pos h]
      simp only [PlaceAndPlayBot.DdosStatus.waitTime, Option.some.injEq]
      ring
    · rw [PlaceAndPlayBot.check_ddos_notBlocked_eq m chat_id now h]
      exact ⟨by simp [PlaceAndPlayBot.DdosStatus.isBlocked, h],
        by rw [if_neg h]; rfl⟩
  · have h0 : PlaceAndPlayBot.inWindow (t+4) t = true := by
      simp [PlaceAndPlayBot.inWindow, PlaceAndPlayBot.block_duration]
      linarith
    have h1 : PlaceAndPlayBot.inWindow (t+4) (t+1) = true := by
      simp [PlaceAndPlayBot.inWindow, PlaceAndPlayBot.block_duration]
      linarith
    have h2 : PlaceAndPlayBot.inWindow (t+4) (t+2) = true := by
      simp [PlaceAndPlayBot.inWindow, PlaceAndPlayBot.block_duration]
      linarith
    have h3 : PlaceAndPlayBot.inWindow (t+4) (t+3) = true := by
      simp [PlaceAndPlayBot.inWindow, PlaceAndPlayBot.block_duration]
      linarith
    have h4 : PlaceAndPlayBot.inWindow (t+4) (t+4) = true := by
      simp [PlaceAndPlayBot.inWindow, PlaceAndPlayBot.block_duration]
      try linarith
    simp [PlaceAndPlayBot.check_ddos_protection, PlaceAndPlayBot.mapLookup,
      List.filter_cons, h0, h1, h2, h3, h4, PlaceAndPlayBot.max_attempts,
      PlaceAndPlayBot.DdosStatus.isBlocked]
  · have g0 : PlaceAndPlayBot.inWindow (t + 600.5) t = false := by
      simp only [PlaceAndPlayBot.inWindow, PlaceAndPlayBot.block_duration,
        decide_eq_false_iff_not, not_lt]
      linarith
    have g1 : PlaceAndPlayBot.inWindow (t + 600.5) (t+1) = true := by
      simp [PlaceAndPlayBot.inWindow, PlaceAndPlayBot.block_duration]
      linarith
    have g2 : PlaceAndPlayBot.inWindow (t + 600.5) (t+2) = true := by
      simp [PlaceAndPlayBot.inWindow, PlaceAndPlayBot.block_duration]
      linarith
    have g3 : PlaceAndPlayBot.inWindow (t + 600.5) (t+3) = true := by
      simp [PlaceAndPlayBot.inWindow, PlaceAndPlayBot.block_duration]
      linarith
    have g4 : PlaceAndPlayBot.inWindow (t + 600.5) (t+4) = true := by
      simp [PlaceAndPlayBot.inWindow, PlaceAndPlayBot.block_duration]
      linarith
    simp [PlaceAndPlayBot.check_ddos_protection, PlaceAndPlayBot.mapLookup,
      List.filter_cons, g0, g1, g2, g3, g4, PlaceAndPlayBot.max_attempts,
      PlaceAndPlayBot.DdosStatus.isBlocked]

/-- C9: the block check is not read-only. Every call writes the identity's
entry back as the compacted window; a never-seen identity gains a fresh
(empty) entry, growing the map by exactly one binding, while every other
identity's binding is untouched. -/
theorem c9_check_mutates_map :
    (∀ (m : PlaceAndPlayBot.AttemptsMap) (chat_id : Int) (now : ℚ),
        PlaceAndPlayBot.mapLookup (PlaceAndPlayBot.check_ddos_protection m chat_id now).2 chat_id
          = some (PlaceAndPlayBot.windowAt m chat_id now))
    ∧ (∀ (m : PlaceAndPlayBot.AttemptsMap) (chat_id j : Int) (now : ℚ), j ≠ chat_id →
        PlaceAndPlayBot.mapLookup (PlaceAndPlayBot.check_ddos_protection m chat_id now).2 j
          = PlaceAndPlayBot.mapLookup m j)
    ∧ (∀ (m : PlaceAndPlayBot.AttemptsMap) (chat_id : Int) (now : ℚ),
        PlaceAndPlayBot.mapLookup m chat_id = none →
        (PlaceAndPlayBot.check_ddos_protection m chat_id now).2.length = m.length + 1
        ∧ PlaceAndPlayBot.mapLookup (PlaceAndPlayBot.check_ddos_protection m chat_id now).2 chat_id
            = some []) := by
  refine ⟨fun m chat_id now => ?_, fun m chat_id j now hj => ?_, fun m chat_id now hnone => ?_⟩
  · rw [PlaceAndPlayBot.check_ddos_snd, PlaceAndPlayBot.mapLookup_mapSet_self]
  · rw [PlaceAndPlayBot.check_ddos_snd, PlaceAndPlayBot.mapLookup_mapSet_ne _ _ _ _ hj]
  · constructor
    · rw [PlaceAndPlayBot.check_ddos_snd, PlaceAndPlayBot.mapSet_length_of_none _ _ _ hnone]
    · rw [PlaceAndPlayBot.check_ddos_snd, PlaceAndPlayBot.mapLookup_mapSet_self]
      simp [PlaceAndPlayBot.windowAt, hnone]

/-- C9 witness: concrete instances — the chat's entry is replaced by its
compacted window, a foreign chat's entry is untouched, and a fresh chat gains
an empty entry growing the map from 0 to 1 bindings. -/
theorem c9_check_mutates_map_witness :
    (PlaceAndPlayBot.mapLookup
        (PlaceAndPlayBot.check_ddos_protection [((3:Int), [(1:ℚ)])] 3 2).2 3
      = some (PlaceAndPlayBot.windowAt [((3:Int), [(1:ℚ)])] 3 2))
    ∧ ((4:Int) ≠ 3
      ∧ PlaceAndPlayBot.mapLookup
          (PlaceAndPlayBot.check_ddos_protection [((3:Int), [(1:ℚ)])] 3 2).2 4
        = PlaceAndPlayBot.mapLookup [((3:Int), [(1:ℚ)])] 4)
    ∧ (PlaceAndPlayBot.mapLookup ([] : PlaceAndPlayBot.AttemptsMap) 5 = none
      ∧ ((PlaceAndPlayBot.check_ddos_protection ([] : PlaceAndPlayBot.AttemptsMap) 5 2).2.length
            = ([] : PlaceAndPlayBot.AttemptsMap).length + 1
         ∧ PlaceAndPlayBot.mapLookup
             (PlaceAndPlayBot.check_ddos_protection ([] : PlaceAndPlayBot.AttemptsMap) 5 2).2 5
           = some [])) :=
  ⟨c9_check_mutates_map.1 _ _ _,
   ⟨by decide, c9_check_mutates_map.2.1 _ _ _ _ (by decide)⟩,
   ⟨rfl, c9_check_mutates_map.2.2 _ _ _ rfl⟩⟩

/-- C4: the blocked short-circuit. Whenever an identity already holds at
least 5 attempts inside the 600-second window, a further call of the
phone-number handler returns the `Blocked` reply and issues neither the
upstream login call nor the code-request call. -/
theorem c4_blocked_short_circuit (m : PlaceAndPlayBot.AttemptsMap) (chat_id : Int)
    (text : String) (now : ℚ) (login : PlaceAndPlayBot.LoginOutcome) (codeResp : HttpResp)
    (h : PlaceAndPlayBot.max_attempts ≤ (PlaceAndPlayBot.windowAt m chat_id now).length) :
    (PlaceAndPlayBot.handle_phone_number m chat_id text now login codeResp).1.isBlockedReply
      = true
    ∧ (PlaceAndPlayBot.handle_phone_number m chat_id text now login codeResp).2.2 = [] := by
  rw [PlaceAndPlayBot.handle_phone_number, PlaceAndPlayBot.check_ddos_blocked_eq m chat_id now h]
  exact ⟨rfl, rfl⟩

/-- C4 witness: a chat with the five attempts `0..4` on record, checked at
time 5, is turned away with the blocked reply and an empty upstream trace. -/
theorem c4_blocked_short_circuit_witness :
    (PlaceAndPlayBot.max_attempts ≤
      (PlaceAndPlayBot.windowAt [((7:Int), [(0:ℚ), 1, 2, 3, 4])] 7 5).length)
    ∧ ((PlaceAndPlayBot.handle_phone_number [((7:Int), [(0:ℚ), 1, 2, 3, 4])] 7
          "+998998888931" 5 (.ok "acc" "ref") ⟨200, some (Json.obj []), "raw"⟩).1.isBlockedReply
        = true
      ∧ (PlaceAndPlayBot.handle_phone_number [((7:Int), [(0:ℚ), 1, 2, 3, 4])] 7
          "+998998888931" 5 (.ok "acc" "ref") ⟨200, some (Json.obj []), "raw"⟩).2.2 = []) := by
  have h5 : PlaceAndPlayBot.max_attempts ≤
      (PlaceAndPlayBot.windowAt [((7:Int), [(0:ℚ), 1, 2, 3, 4])] 7 5).length := by
    norm_num [PlaceAndPlayBot.windowAt, PlaceAndPlayBot.mapLookup, PlaceAndPlayBot.inWindow,
      PlaceAndPlayBot.block_duration, PlaceAndPlayBot.max_attempts, List.filter]
  exact ⟨h5, c4_blocked_short_circuit _ _ _ _ _ _ h5⟩

/-- C5 (counterexample): the claim's mapping must hold "for every response of
the code-request call", but the bot's own `request_verification_code` has no
401 branch: a 401 response produces the `API_ERROR` kind, not `AUTH_ERROR`,
conflating the two. -/
theorem c5_code_request_status_counterexample :
    (PlaceAndPlayBot.request_verification_code
        ⟨401, some (Json.obj []), "unauthorized"⟩).errorTag = "API_ERROR"
    ∧ (PlaceAndPlayBot.request_verification_code
        ⟨401, some (Json.obj []), "unauthorized"⟩).errorTag ≠ "AUTH_ERROR" :=
  ⟨rfl, by decide⟩

/-- C5 (amended): the agent's `request_verification_code` maps a 401 status
to `AUTH_ERROR` and every other non-2xx status to `API_ERROR`, never
conflating the two, and `process_verification_request` sends the distinct
re-authenticate message exactly for `AUTH_ERROR` and the generic retry-later
message otherwise; the bot's own `request_verification_code`, however, maps
every non-200 status — 401 included — to `API_ERROR`. -/
theorem c5_code_request_status_amended :
    (∀ resp : HttpResp, resp.status = 401 →
        PlaceAndPlayAgent.request_verification_code resp =
          PlaceAndPlayAgent.AgentVerifyResult.failure "AUTH_ERROR")
    ∧ (∀ resp : HttpResp, (resp.status < 200 ∨ 300 ≤ resp.status) → resp.status ≠ 401 →
        PlaceAndPlayAgent.request_verification_code resp =
          PlaceAndPlayAgent.AgentVerifyResult.failure "API_ERROR")
    ∧ (∀ (resp : HttpResp) (d : Bool), resp.status = 401 →
        PlaceAndPlayAgent.process_verification_request resp d =
          (PlaceAndPlayAgent.ProcessResult.failed "AUTH_ERROR",
           PlaceAndPlayAgent.SentMessage.authErrorMessage))
    ∧ (∀ (resp : HttpResp) (d : Bool), (resp.status < 200 ∨ 300 ≤ resp.status) →
        resp.status ≠ 401 →
        PlaceAndPlayAgent.process_verification_request resp d =
          (PlaceAndPlayAgent.ProcessResult.failed "API_ERROR",
           PlaceAndPlayAgent.SentMessage.genericErrorMessage "API_ERROR"))
    ∧ (∀ resp : HttpResp, resp.status ≠ 200 →
        (PlaceAndPlayBot.request_verification_code resp).errorTag = "API_ERROR") := by
  have hagent401 : ∀ resp : HttpResp, resp.status = 401 →
      PlaceAndPlayAgent.request_verification_code resp =
        PlaceAndPlayAgent.AgentVerifyResult.failure "AUTH_ERROR" := by
    intro resp h
    simp [PlaceAndPlayAgent.request_verification_code, h]
  have hagentOther : ∀ resp : HttpResp, (resp.status < 200 ∨ 300 ≤ resp.status) →
      resp.status ≠ 401 →
      PlaceAndPlayAgent.request_verification_code resp =
        PlaceAndPlayAgent.AgentVerifyResult.failure "API_ERROR" := by
    intro resp hr h401
    have h200 : resp.status ≠ 200 := by omega
    simp [PlaceAndPlayAgent.request_verification_code, h200, h401]
  refine ⟨hagent401, hagentOther, fun resp d h => ?_, fun resp d hr h401 => ?_,
    fun resp h => ?_⟩
  · simp [PlaceAndPlayAgent.process_verification_request, hagent401 resp h]
  · simp [PlaceAndPlayAgent.process_verification_request, hagentOther resp hr h401]
  · simp [PlaceAndPlayBot.request_verification_code, h, PlaceAndPlayBot.BotVerifyResult.errorTag]

/-- C5 witness: the agent maps a concrete 401 to `AUTH_ERROR` with the
re-authenticate message, a concrete 500 to `API_ERROR` with the generic
message, and the bot maps a concrete 500 to `API_ERROR`. -/
theorem c5_code_request_status_amended_witness :
    (PlaceAndPlayAgent.request_verification_code ⟨401, none, "t"⟩ =
        PlaceAndPlayAgent.AgentVerifyResult.failure "AUTH_ERROR")
    ∧ (PlaceAndPlayAgent.request_verification_code ⟨500, none, "t"⟩ =
        PlaceAndPlayAgent.AgentVerifyResult.failure "API_ERROR")
    ∧ (PlaceAndPlayAgent.process_verification_request ⟨401, none, "t"⟩ true =
        (PlaceAndPlayAgent.ProcessResult.failed "AUTH_ERROR",
         PlaceAndPlayAgent.SentMessage.authErrorMessage))
    ∧ (PlaceAndPlayAgent.process_verification_request ⟨500, none, "t"⟩ true =
        (PlaceAndPlayAgent.ProcessResult.failed "API_ERROR",
         PlaceAndPlayAgent.SentMessage.genericErrorMessage "API_ERROR"))
    ∧ ((PlaceAndPlayBot.request_verification_code ⟨500, none, "t"⟩).errorTag = "API_ERROR") :=
  ⟨c5_code_request_status_amended.1 _ rfl,
   c5_code_request_status_amended.2.1 _ (Or.inr (by decide)) (by decide),
   c5_code_request_status_amended.2.2.1 _ _ rfl,
   c5_code_request_status_amended.2.2.2.1 _ _ (Or.inr (by decide)) (by decide),
   c5_code_request_status_amended.2.2.2.2 _ (by decide)⟩

/-- C10: format rejection is attempt-free. For every inbound text whose
stripped form does not start with `+` or is shorter than 10 characters, the
handler issues no upstream call, writes back only the DDoS check's
compaction (recording nothing, so every chat's effective window — and hence
its standing toward the 5-attempt limit — is unchanged), and, whenever the
chat is not already blocked, replies with the format error. -/
theorem c10_format_rejection_attempt_free (m : PlaceAndPlayBot.AttemptsMap) (chat_id : Int)
    (text : String) (now : ℚ) (login : PlaceAndPlayBot.LoginOutcome) (codeResp : HttpResp)
    (j : Int)
    (hfmt : pyStartsWith (pyStrip text) "+" = false ∨ (pyStrip text).length < 10) :
    (PlaceAndPlayBot.handle_phone_number m chat_id text now login codeResp).2.2 = []
    ∧ (PlaceAndPlayBot.handle_phone_number m chat_id text now login codeResp).2.1 =
        PlaceAndPlayBot.mapSet m chat_id (PlaceAndPlayBot.windowAt m chat_id now)
    ∧ PlaceAndPlayBot.windowAt
        (PlaceAndPlayBot.handle_phone_number m chat_id text now login codeResp).2.1 j now =
        PlaceAndPlayBot.windowAt m j now
    ∧ ((PlaceAndPlayBot.check_ddos_protection m chat_id now).1.isBlocked = false →
        (PlaceAndPlayBot.handle_phone_number m chat_id text now login codeResp).1 =
          PlaceAndPlayBot.HandlerReply.formatErrorReply) := by
  by_cases hb : PlaceAndPlayBot.max_attempts ≤ (PlaceAndPlayBot.windowAt m chat_id now).length
  · have harm : PlaceAndPlayBot.handle_phone_number m chat_id text now login codeResp =
        (PlaceAndPlayBot.HandlerReply.blockedReply
          (PlaceAndPlayBot.pyFloorDiv (PlaceAndPlayBot.block_duration -
            (now - PlaceAndPlayBot.listMin (PlaceAndPlayBot.windowAt m chat_id now))) 60)
          (PlaceAndPlayBot.pyInt (PlaceAndPlayBot.pyMod (PlaceAndPlayBot.block_duration -
            (now - PlaceAndPlayBot.listMin (PlaceAndPlayBot.windowAt m chat_id now))) 60)),
         PlaceAndPlayBot.mapSet m chat_id (PlaceAndPlayBot.windowAt m chat_id now), []) := by
      rw [PlaceAndPlayBot.handle_phone_number,
        PlaceAndPlayBot.check_ddos_blocked_eq m chat_id now hb]
    rw [harm]
    refine ⟨rfl, rfl, PlaceAndPlayBot.windowAt_after_check m chat_id now j, fun habs => ?_⟩
    rw [PlaceAndPlayBot.check_ddos_blocked_eq m chat_id now hb] at habs
    simp [PlaceAndPlayBot.DdosStatus.isBlocked] at habs
  · have harm : PlaceAndPlayBot.handle_phone_number m chat_id text now login codeResp =
        (PlaceAndPlayBot.HandlerReply.formatErrorReply,
         PlaceAndPlayBot.mapSet m chat_id (PlaceAndPlayBot.windowAt m chat_id now), []) := by
      rw [PlaceAndPlayBot.handle_phone_number,
        PlaceAndPlayBot.check_ddos_notBlocked_eq m chat_id now hb]
      exact if_pos hfmt
    rw [harm]
    exact ⟨rfl, rfl, PlaceAndPlayBot.windowAt_after_check m chat_id now j, fun _ => rfl⟩

/-- C10 witness: the text `"12345"` (no `+` prefix) against an empty
attempts map triggers the format-error reply, no upstream call, and leaves
the chat's window empty. -/
theorem c10_format_rejection_attempt_free_witness :
    (pyStartsWith (pyStrip "12345") "+" = false ∨ (pyStrip "12345").length < 10)
    ∧ ((PlaceAndPlayBot.handle_phone_number [] 1 "12345" 0 (.ok "acc" "ref")
          ⟨200, some (Json.obj []), "raw"⟩).2.2 = []
      ∧ (PlaceAndPlayBot.handle_phone_number [] 1 "12345" 0 (.ok "acc" "ref")
          ⟨200, some (Json.obj []), "raw"⟩).2.1 =
          PlaceAndPlayBot.mapSet [] 1 (PlaceAndPlayBot.windowAt [] 1 0)
      ∧ PlaceAndPlayBot.windowAt
          (PlaceAndPlayBot.handle_phone_number [] 1 "12345" 0 (.ok "acc" "ref")
            ⟨200, some (Json.obj []), "raw"⟩).2.1 1 0 =
          PlaceAndPlayBot.windowAt [] 1 0
      ∧ ((PlaceAndPlayBot.check_ddos_protection [] 1 0).1.isBlocked = false →
          (PlaceAndPlayBot.handle_phone_number [] 1 "12345" 0 (.ok "acc" "ref")
            ⟨200, some (Json.obj []), "raw"⟩).1 =
            PlaceAndPlayBot.HandlerReply.formatErrorReply)) :=
  ⟨Or.inl (by decide),
   c10_format_rejection_attempt_free [] 1 "12345" 0 (.ok "acc" "ref")
     ⟨200, some (Json.obj []), "raw"⟩ 1 (Or.inl (by decide))⟩
